import Mathlib

/-!
Shallow embedding of the phoenix-scanner core of `src/hitntry.py`:
the investigation-bundle data model, the scorer `calculate_risk`
(lines 221-451) and the collector `deep_scan_company` (lines 454-562).

External collaborators are parameters of the embedding:
* the registry HTTP client (`api_request` and its wrappers) is a `Registry`
  record of injected responses, one per endpoint plus a query-indexed
  search function;
* `difflib.SequenceMatcher(None, a, b).ratio() * 100` is an abstract
  similarity function `ratio : String → String → ℚ` (the scorer only
  branches on its value);
* the clock is a single scan-time cutoff value (the source calls
  `datetime.now() - timedelta(days=730)` while classifying each linked
  company; real time does not exist in the embedding, so the cutoff is a
  fixed rational parameter measured in fractional proleptic-Gregorian
  ordinal days, the scale of Python's `datetime.toordinal`).

Python dicts are structures; `dict.get(k, '')` defaults are folded into
plain `String` fields; keys the code tests with `in` are `Option` fields.
-/

namespace Phoenix

/-- `registered_office_address` sub-dict; `none` models an absent key.
`build_address_string` also skips components that are empty strings
(`if field in addr and addr[field]`). -/
structure Address where
  address_line_1 : Option String
  address_line_2 : Option String
  locality : Option String
  postal_code : Option String
deriving DecidableEq

/-- Company profile dict as read by the code (`.get(key, '')` defaults
folded into plain strings; the address key is optional). -/
structure Company where
  company_name : String
  company_status : String
  company_number : String
  registered_office_address : Option Address
deriving DecidableEq

/-- A `/search/companies` hit as read by the code. `found_by` is absent in
raw registry responses and is only ever written by the collector's
address-search loop. -/
structure SearchItem where
  title : String
  company_status : String
  company_number : String
  date_of_creation : String
  address_snippet : Option String
  found_by : Option String
deriving DecidableEq

/-- Entry of `officer_entry['linked_companies']` (hitntry.py lines 513-518). -/
structure LinkedCompany where
  company_number : String
  title : String
  status : String
  date_of_creation : String
deriving DecidableEq

/-- Collected officer summary (`officer_entry`, hitntry.py lines 494-503). -/
structure OfficerEntry where
  name : String
  role : String
  appointed_on : String
  resigned_on : String
  linked_companies : List LinkedCompany
  dissolved_links : Nat
  liquidation_links : Nat
  recent_formations : Nat
deriving DecidableEq

/-- A charge item; the scorer only reads `status`. -/
structure Charge where
  status : String
  created_on : String
deriving DecidableEq

/-- A filing-history item (pass-through payload, never inspected by the scorer). -/
structure FilingItem where
  date : String
  description : String
  category : String
deriving DecidableEq

/-- A PSC item (pass-through payload, never inspected by the scorer). -/
structure PscItem where
  name : String
  notified_on : String
deriving DecidableEq

/-- Opaque payload of a successful (non-error, nonempty-dict) insolvency
response; the scorer only tests `report['insolvency']` for truthiness. -/
structure InsolvencyRec where
  raw : String
deriving DecidableEq

/-- A scoring indicator: `{'type': ..., 'severity': ..., 'description': ...}`. -/
structure Indicator where
  type : String
  severity : String
  description : String
deriving DecidableEq

/-- Indicator constructor, in the dict's key order. -/
def mkInd (t s d : String) : Indicator :=
  { type := t, severity := s, description := d }

/-- The investigation bundle (`report` dict of `deep_scan_company`).
The last six fields are the assessment written by `calculate_risk`;
before scoring they hold the initial dict's defaults. -/
structure Report where
  company : Company
  officers : List OfficerEntry
  filing_history : List FilingItem
  psc : List PscItem
  charges : List Charge
  insolvency : Option InsolvencyRec
  similar_companies : List SearchItem
  flags : List String
  risk_score : Nat
  risk_level : String
  is_phoenix : String
  phoenix_confidence : Nat
  phoenix_reasons : List String
  phoenix_indicators : List Indicator
deriving DecidableEq

/-- `suspicious_statuses` (hitntry.py lines 226 and 469). -/
def suspicious_statuses : List String :=
  ["dissolved", "liquidation", "insolvency-proceedings", "receivership", "administration"]

/-- The three-element status list of the similar-companies loop
(hitntry.py line 248). -/
def susp3 : List String := ["dissolved", "liquidation", "insolvency-proceedings"]

/-- Component filter of `build_address_string`: keep a component only when
the key is present and the value truthy (nonempty). -/
def addrField (o : Option String) : List String :=
  match o with
  | some s => if s ≠ "" then [s] else []
  | none => []

/-- `build_address_string` (hitntry.py lines 206-218): concatenate the
present, nonempty address components with single spaces. -/
def build_address_string (company : Company) : String :=
  match company.registered_office_address with
  | none => ""
  | some addr =>
      String.intercalate " "
        (addrField addr.address_line_1 ++ addrField addr.address_line_2 ++
         addrField addr.locality ++ addrField addr.postal_code)

/-- Python `f"{x:.0f}"` on a nonnegative value: round half to even, print the
integer. Used only inside indicator description strings. -/
def pyFmt0f (q : ℚ) : String :=
  let f := q.floor
  let frac := q - (f : ℚ)
  let n := if frac < 1/2 then f else if 1/2 < frac then f + 1
           else if f % 2 = 0 then f else f + 1
  toString n

/-- Accumulator of the similar-companies loop (hitntry.py lines 241-265):
running score, indicator list, and `name_recycling_dissolved`. -/
structure SimAcc where
  risk : Nat
  inds : List Indicator
  nrd : List SearchItem
deriving DecidableEq

def highNameInd (similar : SearchItem) (similarity : ℚ) : Indicator :=
  mkInd "high_name_similarity" "high"
    ("Very similar name to dissolved company: " ++ similar.title ++
      " (" ++ similar.company_number ++ ") - " ++ pyFmt0f similarity ++ "% match")

def medNameInd (similar : SearchItem) (similarity : ℚ) : Indicator :=
  mkInd "name_similarity" "medium"
    ("Similar name to dissolved company: " ++ similar.title ++
      " (" ++ similar.company_number ++ ") - " ++ pyFmt0f similarity ++ "% match")

/-- Body of the similar-companies loop (hitntry.py lines 241-265).
`ratio a b` models `SequenceMatcher(None, a, b).ratio() * 100`. -/
def similarStep (ratio : String → String → ℚ) (company_name : String)
    (acc : SimAcc) (similar : SearchItem) : SimAcc :=
  let similar_name := similar.title.toLower
  let similarity := ratio company_name similar_name
  if similar.company_status ∈ susp3 then
    if 70 ≤ similarity then
      let nrd := acc.nrd ++ [similar]
      if 85 ≤ similarity then
        { risk := acc.risk + 25
          inds := acc.inds ++ [highNameInd similar similarity]
          nrd := nrd }
      else if 70 ≤ similarity then
        { risk := acc.risk + 15
          inds := acc.inds ++ [medNameInd similar similarity]
          nrd := nrd }
      else { acc with nrd := nrd }
    else acc
  else acc

/-- Accumulator of the officer loop (hitntry.py lines 282-332): running
score, indicators, `phoenix_directors` and `serial_directors`. The
source sums each officer's deltas into a local `officer_risk` and adds it
to `risk_score` at the end of the iteration; adding the deltas directly is
the same sum. The write-only local `officer_flags` is omitted. -/
structure OffAcc where
  risk : Nat
  inds : List Indicator
  pds : List OfficerEntry
  sds : List OfficerEntry
deriving DecidableEq

/-- Body of the officer loop (hitntry.py lines 285-332). -/
def officerStep (acc : OffAcc) (officer : OfficerEntry) : OffAcc :=
  let a1 :=
    if 3 ≤ officer.dissolved_links then
      { acc with
          risk := acc.risk + 30
          sds := acc.sds ++ [officer]
          inds := acc.inds ++ [mkInd "serial_dissolutions" "critical"
            (officer.name ++ " has " ++ toString officer.dissolved_links ++
              " dissolved companies")] }
    else if 2 ≤ officer.dissolved_links then
      { acc with
          risk := acc.risk + 20
          inds := acc.inds ++ [mkInd "multiple_dissolutions" "high"
            (officer.name ++ " has " ++ toString officer.dissolved_links ++
              " dissolved companies")] }
    else acc
  let a2 :=
    if 2 ≤ officer.liquidation_links then
      { a1 with
          risk := a1.risk + 40
          inds := a1.inds ++ [mkInd "liquidation_pattern" "critical"
            (officer.name ++ " linked to " ++ toString officer.liquidation_links ++
              " companies in liquidation/insolvency")] }
    else if 1 ≤ officer.liquidation_links then
      { a1 with
          risk := a1.risk + 20
          inds := a1.inds ++ [mkInd "liquidation_history" "high"
            (officer.name ++ " linked to " ++ toString officer.liquidation_links ++
              " company in liquidation/insolvency")] }
    else a1
  if 1 ≤ officer.dissolved_links ∧ 1 ≤ officer.recent_formations then
    { a2 with
        risk := a2.risk + 25
        pds := a2.pds ++ [officer]
        inds := a2.inds ++ [mkInd "phoenix_director_pattern" "high"
          (officer.name ++ ": " ++ toString officer.dissolved_links ++
            " dissolved companies + " ++ toString officer.recent_formations ++
            " recent formations (potential phoenix activity)")] }
  else a2

/-- State of the phoenix-verdict paragraph (hitntry.py lines 390-442):
`is_phoenix`, `phoenix_confidence`, `phoenix_reasons`. -/
structure PhoenixAcc where
  verdict : Bool
  conf : Nat
  reasons : List String
deriving DecidableEq

/-- One confidence addition followed by the source's
`if phoenix_confidence >= 60: is_phoenix = True` check. -/
def confCheckedAdd (delta : Nat) (reason : String) (st : PhoenixAcc) : PhoenixAcc :=
  let c := st.conf + delta
  { verdict := if 60 ≤ c then true else st.verdict
    conf := c
    reasons := st.reasons ++ [reason] }

/-- One confidence addition without a verdict check (the two `elif` arms at
hitntry.py lines 399-401 and 415-417). -/
def confAdd (delta : Nat) (reason : String) (st : PhoenixAcc) : PhoenixAcc :=
  { st with conf := st.conf + delta, reasons := st.reasons ++ [reason] }

/-- hitntry.py lines 394-401: phoenix-pattern directors. The one-director
arm is an `elif` with no verdict check. -/
def pdBranch (npd : Nat) (st : PhoenixAcc) : PhoenixAcc :=
  if 2 ≤ npd then
    confCheckedAdd 40 (toString npd ++
      " directors show phoenix patterns (dissolved companies + recent formations)") st
  else if 1 ≤ npd then
    confAdd 25 (toString npd ++
      " director shows phoenix pattern (dissolved companies + recent formations)") st
  else st

/-- hitntry.py lines 403-408: directors with `liquidation_links >= 2`. -/
def hlBranch (nhl : Nat) (st : PhoenixAcc) : PhoenixAcc :=
  if 1 ≤ nhl then
    confCheckedAdd 35 (toString nhl ++
      " director(s) linked to multiple liquidations/insolvencies") st
  else st

/-- hitntry.py lines 410-417: name recycling. The two-match arm is an
`elif` with no verdict check. -/
def nrdBranch (nnrd : Nat) (st : PhoenixAcc) : PhoenixAcc :=
  if 3 ≤ nnrd then
    confCheckedAdd 30 ("Name recycling detected: " ++ toString nnrd ++
      " similar dissolved companies") st
  else if 2 ≤ nnrd then
    confAdd 20 ("Possible name recycling: " ++ toString nnrd ++
      " similar dissolved companies") st
  else st

/-- hitntry.py lines 419-425: insolvency history with a phoenix director. -/
def insBranch (hasInsolv : Bool) (npd : Nat) (st : PhoenixAcc) : PhoenixAcc :=
  if hasInsolv ∧ 0 < npd then
    confCheckedAdd 30 "Insolvency history combined with directors forming new companies" st
  else st

/-- hitntry.py lines 427-431: address matches with name recycling. -/
def addrBranch (naddr nnrd : Nat) (st : PhoenixAcc) : PhoenixAcc :=
  if 3 ≤ naddr ∧ 2 ≤ nnrd then
    confCheckedAdd 25 "Multiple companies with same address and similar names" st
  else st

/-- hitntry.py lines 433-437: serial directors with name recycling. -/
def serialBranch (nserial nnrd : Nat) (st : PhoenixAcc) : PhoenixAcc :=
  if 1 ≤ nserial ∧ 2 ≤ nnrd then
    confCheckedAdd 20 (toString nserial ++
      " serial director(s) with name recycling pattern") st
  else st

/-- The phoenix-verdict paragraph (hitntry.py lines 390-442), as a function
of `len(phoenix_directors)`, `len(high_liquidation_directors)`,
`len(name_recycling_dissolved)`, `has_insolvency`, `len(address_matches)`
and `len(serial_directors)`: the six branches in source order, then the
clamp of the confidence and the default reason message. -/
def phoenixSection (npd nhl nnrd : Nat) (hasInsolv : Bool) (naddr nserial : Nat) :
    PhoenixAcc :=
  let st := serialBranch nserial nnrd (addrBranch naddr nnrd (insBranch hasInsolv npd
    (nrdBranch nnrd (hlBranch nhl (pdBranch npd ⟨false, 0, []⟩)))))
  { verdict := st.verdict
    conf := min st.conf 100
    reasons :=
      if st.reasons = [] then
        ["No clear phoenix patterns detected based on name, director, or address analysis"]
      else st.reasons }

/-- `calculate_risk` (hitntry.py lines 221-451). Reads the collected fields
of the bundle, writes the six assessment fields; pure in the source too
(no I/O, no clock). -/
def calculate_risk (ratio : String → String → ℚ) (report : Report) : Report :=
  let company_name := report.company.company_name.toLower
  let base : SimAcc :=
    if report.company.company_status ∈ suspicious_statuses then
      { risk := 30
        inds := [mkInd "company_status" "high"
          ("Company status is: " ++ report.company.company_status)]
        nrd := [] }
    else { risk := 0, inds := [], nrd := [] }
  let sim := report.similar_companies.foldl (similarStep ratio company_name) base
  let afterNrd : Nat × List Indicator :=
    if 3 ≤ sim.nrd.length then
      (sim.risk + 30, sim.inds ++ [mkInd "name_recycling" "critical"
        (toString sim.nrd.length ++
          " dissolved companies with similar names found - strong name recycling pattern")])
    else if 2 ≤ sim.nrd.length then
      (sim.risk + 20, sim.inds ++ [mkInd "name_recycling" "high"
        (toString sim.nrd.length ++
          " dissolved companies with similar names found - possible name recycling")])
    else (sim.risk, sim.inds)
  let off := report.officers.foldl officerStep
    { risk := afterNrd.1, inds := afterNrd.2, pds := [], sds := [] }
  let target_address := build_address_string report.company
  let addrRes : Nat × List Indicator × List SearchItem :=
    if target_address ≠ "" then
      let address_matches := report.similar_companies.filter (fun similar =>
        match similar.address_snippet with
        | some snippet => decide (85 < ratio target_address.toLower snippet.toLower)
        | none => false)
      if 5 ≤ address_matches.length then
        (off.risk + 35, off.inds ++ [mkInd "address_recycling" "critical"
          (toString address_matches.length ++
            " companies with same/similar addresses - strong address recycling pattern")],
         address_matches)
      else if 3 ≤ address_matches.length then
        (off.risk + 25, off.inds ++ [mkInd "address_recycling" "high"
          (toString address_matches.length ++
            " companies with same/similar addresses - possible address recycling")],
         address_matches)
      else (off.risk, off.inds, address_matches)
    else (off.risk, off.inds, [])
  let afterCharges : Nat × List Indicator :=
    if report.charges ≠ [] then
      let outstanding := (report.charges.filter (fun charge => charge.status = "outstanding")).length
      if 0 < outstanding then
        (addrRes.1 + 10, addrRes.2.1 ++ [mkInd "outstanding_charges" "medium"
          (toString outstanding ++ " outstanding charges/mortgages on company")])
      else (addrRes.1, addrRes.2.1)
    else (addrRes.1, addrRes.2.1)
  let afterIns : Nat × List Indicator :=
    if report.insolvency.isSome then
      (afterCharges.1 + 40, afterCharges.2 ++ [mkInd "insolvency_history" "critical"
        "Company has insolvency proceedings on record"])
    else afterCharges
  let risk_score := min afterIns.1 100
  let risk_level :=
    if 70 ≤ risk_score then "CRITICAL"
    else if 50 ≤ risk_score then "HIGH"
    else if 30 ≤ risk_score then "MEDIUM"
    else "LOW"
  let indicators := afterIns.2
  let high_liquidation_directors := report.officers.filter (fun d => 2 ≤ d.liquidation_links)
  let has_insolvency := indicators.any (fun ind => ind.type == "insolvency_history")
  let pacc := phoenixSection off.pds.length high_liquidation_directors.length
    sim.nrd.length has_insolvency addrRes.2.2.length off.sds.length
  { report with
      is_phoenix := if pacc.verdict then "YES" else "NO"
      phoenix_confidence := pacc.conf
      phoenix_reasons := pacc.reasons
      risk_score := risk_score
      risk_level := risk_level
      phoenix_indicators := indicators }

/-! ## The collector (`deep_scan_company`, hitntry.py lines 454-562)

The registry HTTP client is an external collaborator: a `Registry` record
injects one response per endpoint and a query-indexed search response.
`api_request` (lines 152-168) returns either the decoded JSON or a dict
containing an `error` key; the callers test `'error' in resp` or
`'items' in resp`. -/

/-- Result of one `api_request` call whose useful payload sits under an
`items` key: `err` models a response dict carrying an `error` key,
`ok none` a successful response without an `items` key, `ok (some l)` a
successful response with items `l`. -/
inductive ApiResp (α : Type) where
  | err (msg : String)
  | ok (items : Option α)

/-- `resp.get('items', [])`, and equally `if 'items' in resp:` followed by a
loop over `resp['items']`. -/
def getItems {α : Type} : ApiResp (List α) → List α
  | ApiResp.err _ => []
  | ApiResp.ok none => []
  | ApiResp.ok (some l) => l

/-- Whether a response dict carries an `error` key. -/
def ApiResp.isErr {α : Type} : ApiResp α → Bool
  | ApiResp.err _ => true
  | ApiResp.ok _ => false

/-- A raw officer item of the `/officers` response; `name` is optional
because the code reads `officer.get('name', '(unknown)')`. -/
structure RawOfficer where
  name : Option String
  officer_role : String
  appointed_on : String
  resigned_on : String
deriving DecidableEq

/-- The injected registry responses for one scan: profile, officers,
filing history, PSC, charges, insolvency, and `search_companies` by query.
For the profile and insolvency endpoints the whole dict is the payload, so
an `Except` models the `'error' in resp` test. -/
structure Registry where
  companyResp : Except String Company
  officersResp : ApiResp (List RawOfficer)
  filingResp : ApiResp (List FilingItem)
  pscResp : ApiResp (List PscItem)
  chargesResp : ApiResp (List Charge)
  insolvencyResp : Except String InsolvencyRec
  search : String → ApiResp (List SearchItem)

/-- Calendar date produced by `datetime.strptime(s, '%Y-%m-%d')`. -/
structure DateYMD where
  year : Nat
  month : Nat
  day : Nat
deriving DecidableEq

def isLeapYear (y : Nat) : Bool :=
  (y % 4 == 0 && y % 100 != 0) || y % 400 == 0

def daysInMonth (y m : Nat) : Nat :=
  if m = 2 then (if isLeapYear y then 29 else 28)
  else if m = 4 ∨ m = 6 ∨ m = 9 ∨ m = 11 then 30
  else 31

/-- Python `datetime.toordinal`: day number of the proleptic Gregorian
calendar, with 0001-01-01 as day 1. -/
def dateOrdinal (d : DateYMD) : Nat :=
  let a := d.year - 1
  let daysBeforeMonth := ((List.range (d.month - 1)).map (fun i => daysInMonth d.year (i + 1))).sum
  a * 365 + a / 4 + a / 400 - a / 100 + daysBeforeMonth + d.day

/-- Numeric value of a digit-character string. -/
def digitsVal (cs : List Char) : Nat := cs.foldl (fun n c => n * 10 + (c.toNat - 48)) 0

/-- Base code points of the Unicode 14.0.0 decimal-digit (Nd) blocks, each
a run of ten consecutive code points carrying the digit values 0..9.
CPython's `re` module (here CPython 3.11, whose `unicodedata` is
Unicode 14.0.0) matches `\d` against exactly this set, and `int()` converts
these digits by their decimal value. -/
def ndDigitBases : List Nat :=
  [48, 1632, 1776, 1984, 2406, 2534, 2662, 2790, 2918, 3046, 3174, 3302,
   3430, 3558, 3664, 3792, 3872, 4160, 4240, 6112, 6160, 6470, 6608, 6784,
   6800, 6992, 7088, 7232, 7248, 42528, 43216, 43264, 43472, 43504, 43600,
   44016, 65296, 66720, 68912, 69734, 69872, 69942, 70096, 70384, 70736,
   70864, 71248, 71360, 71472, 71904, 72016, 72784, 73040, 73120, 92768,
   92864, 93008, 120782, 120792, 120802, 120812, 120822, 123200, 123632,
   125264, 130032]

/-- The decimal value of a Unicode Nd digit (what `\d` matches and `int()`
converts), `none` for every other character. -/
def unicodeDigitVal (c : Char) : Option Nat :=
  match ndDigitBases.find? (fun b => b ≤ c.toNat ∧ c.toNat < b + 10) with
  | some b => some (c.toNat - b)
  | none => none

/-- CPython `%Y` field of `_strptime`: regex `\d\d\d\d` — exactly four
Unicode decimal digits (years below 1000 must be zero-padded). -/
def yearField (cs : List Char) : Option Nat :=
  if cs.length = 4 ∧ cs.all (fun c => (unicodeDigitVal c).isSome) then
    some (cs.foldl (fun n c => n * 10 + (unicodeDigitVal c).getD 0) 0)
  else none

/-- CPython `%m` field of `_strptime`: regex `1[0-2]|0[1-9]|[1-9]`. All its
literals and classes are ASCII, so this is: one or two ASCII digits whose
value is 1..12 (`0` and `00` match no alternative; no blank padding). -/
def monthField (cs : List Char) : Option Nat :=
  if 1 ≤ cs.length ∧ cs.length ≤ 2 ∧ cs.all Char.isDigit ∧
     1 ≤ digitsVal cs ∧ digitsVal cs ≤ 12 then
    some (digitsVal cs)
  else none

/-- CPython `%d` field of `_strptime`: regex `3[01]|[12]\d|0[1-9]|[1-9]| [1-9]`.
The literals and classes are ASCII but the `\d` of `[12]\d` matches any
Unicode decimal digit; a single digit 1..9 may be blank-padded with one
leading space. -/
def dayField (cs : List Char) : Option Nat :=
  match cs with
  | [c] => if c.isDigit ∧ c ≠ '0' then some (c.toNat - 48) else none
  | [c1, c2] =>
    if c1 = ' ' then
      if c2.isDigit ∧ c2 ≠ '0' then some (c2.toNat - 48) else none
    else if c1 = '3' then
      if c2 = '0' ∨ c2 = '1' then some (30 + (c2.toNat - 48)) else none
    else if c1 = '1' ∨ c1 = '2' then
      match unicodeDigitVal c2 with
      | some v => some ((c1.toNat - 48) * 10 + v)
      | none => none
    else if c1 = '0' then
      if c2.isDigit ∧ c2 ≠ '0' then some (c2.toNat - 48) else none
    else none
  | _ => none

/-- Modelled after `datetime.strptime(date_of_creation, '%Y-%m-%d')`
(hitntry.py line 530). CPython's `_strptime` matches the regex
`(?P<Y>\d\d\d\d)\-(?P<m>1[0-2]|0[1-9]|[1-9])\-(?P<d>3[01]|[12]\d|0[1-9]|[1-9]| [1-9])`
against the whole string (anchored at the start, with a trailing-junk
check) and then builds `datetime(y, m, d)`. No alternative of any field
matches a dash, so the match succeeds exactly when the string has the form
`year-month-day` with the three fields as modelled above; the constructor
raises `ValueError` for year 0 or a day past the month's length (leap
years included). Both the regex mismatch and the `ValueError` — caught at
hitntry.py line 534 — are modelled as `none`. -/
def strptimeYmd (s : String) : Option DateYMD :=
  match s.toList.splitOn '-' with
  | [ys, ms, ds] =>
    match yearField ys, monthField ms, dayField ds with
    | some y, some m, some d =>
      if 1 ≤ y ∧ d ≤ daysInMonth y m then some ⟨y, m, d⟩ else none
    | _, _, _ => none
  | _ => none

/-- Truthiness-plus-parse recency test of hitntry.py lines 528-535: the
`date_of_creation` string is nonempty, parses as `%Y-%m-%d`, and the
parsed date (at midnight, in ordinal days) is strictly later than the
`now - 730 days` cutoff. -/
def isRecentFormation (cutoff : ℚ) (date_of_creation : String) : Bool :=
  if date_of_creation ≠ "" then
    match strptimeYmd date_of_creation with
    | some creation_date => decide (cutoff < (dateOrdinal creation_date : ℚ))
    | none => false
  else false

/-- Body of the linked-company loop (hitntry.py lines 507-535): append the
linked-company record, update the three counters, and record a flag for a
suspicious status. -/
def linkedStep (cutoff : ℚ) (officer_name : String)
    (acc : OfficerEntry × List String) (linked_company : SearchItem) :
    OfficerEntry × List String :=
  let entry := acc.1
  let company_status := linked_company.company_status
  let entry :=
    { entry with
        linked_companies := entry.linked_companies ++
          [{ company_number := linked_company.company_number
             title := linked_company.title
             status := company_status
             date_of_creation := linked_company.date_of_creation }] }
  let entry :=
    if company_status ∈ suspicious_statuses then
      { entry with
          dissolved_links :=
            if company_status = "dissolved" then entry.dissolved_links + 1
            else entry.dissolved_links
          liquidation_links :=
            if company_status = "liquidation" ∨ company_status = "insolvency-proceedings" then
              entry.liquidation_links + 1
            else entry.liquidation_links }
    else entry
  let flags :=
    if company_status ∈ suspicious_statuses then
      acc.2 ++ ["Director " ++ officer_name ++ " linked to " ++ linked_company.title ++
        " (" ++ company_status ++ ")"]
    else acc.2
  let entry :=
    if isRecentFormation cutoff linked_company.date_of_creation then
      { entry with recent_formations := entry.recent_formations + 1 }
    else entry
  (entry, flags)

/-- One iteration of the officer loop (hitntry.py lines 492-537): build the
initial `officer_entry`, search the registry by officer name and fold the
linked-company loop; also returns the flags the iteration appended. -/
def build_officer_entry (cutoff : ℚ) (search_items : List SearchItem)
    (officer : RawOfficer) : OfficerEntry × List String :=
  let officer_name := officer.name.getD "(unknown)"
  let init : OfficerEntry :=
    { name := officer_name
      role := officer.officer_role
      appointed_on := officer.appointed_on
      resigned_on := officer.resigned_on
      linked_companies := []
      dissolved_links := 0
      liquidation_links := 0
      recent_formations := 0 }
  search_items.foldl (linkedStep cutoff officer_name) (init, [])

/-- Body of the address-search loop (hitntry.py lines 552-558): add a hit
that is not the target and not already present (dedup by company number),
tagged `found_by = 'address'`. -/
def addAddrStep (company_number : String) (acc : List SearchItem)
    (addr_company : SearchItem) : List SearchItem :=
  if addr_company.company_number ≠ company_number then
    if acc.any (fun sc => sc.company_number == addr_company.company_number) then acc
    else acc ++ [{ addr_company with found_by := some "address" }]
  else acc

/-- The address-search loop (hitntry.py lines 550-558). -/
def add_address_similars (items : List SearchItem) (company_number : String)
    (acc : List SearchItem) : List SearchItem :=
  items.foldl (addAddrStep company_number) acc

/-- The bundle-building part of `deep_scan_company` after a successful
profile fetch (hitntry.py lines 456-558): secondary fetches, the officer
loop with its per-officer name searches, the name-similar search (hits kept
as returned, minus the target) and the address-similar search. -/
def collect (cutoff : ℚ) (reg : Registry) (company : Company)
    (company_number : String) : Report :=
  let officer_results := (getItems reg.officersResp).map
    (fun officer =>
      build_officer_entry cutoff (getItems (reg.search (officer.name.getD "(unknown)"))) officer)
  let company_name := company.company_name
  let name_sims :=
    if company_name ≠ "" then
      (getItems (reg.search company_name)).filter
        (fun sim_company => sim_company.company_number ≠ company_number)
    else []
  let address := build_address_string company
  let sims :=
    if address ≠ "" then
      add_address_similars (getItems (reg.search address)) company_number name_sims
    else name_sims
  { company := company
    officers := officer_results.map Prod.fst
    filing_history := getItems reg.filingResp
    psc := getItems reg.pscResp
    charges := getItems reg.chargesResp
    insolvency :=
      match reg.insolvencyResp with
      | Except.error _ => none
      | Except.ok insolvency_data => some insolvency_data
    similar_companies := sims
    flags := (officer_results.map Prod.snd).flatten
    risk_score := 0
    risk_level := ""
    is_phoenix := ""
    phoenix_confidence := 0
    phoenix_reasons := []
    phoenix_indicators := [] }

/-- `deep_scan_company` (hitntry.py lines 454-562): abort with the error
message when the profile fetch fails, otherwise collect the bundle and
score it. -/
def deep_scan_company (ratio : String → String → ℚ) (cutoff : ℚ)
    (reg : Registry) (company_number : String) : Except String Report :=
  match reg.companyResp with
  | Except.error e => Except.error e
  | Except.ok company => Except.ok (calculate_risk ratio (collect cutoff reg company company_number))

/-! ## Concrete instances used in the checks -/

/-- A verdict-confidence state is sound when a true verdict is justified by
a confidence of at least 60. -/
def PhoenixAcc.sound (st : PhoenixAcc) : Prop := st.verdict = true → 60 ≤ st.conf

def ratio0 : String → String → ℚ := fun _ _ => 0

def ratioC : String → String → ℚ := fun _ _ => 75

def ratio70 : String → String → ℚ := fun _ _ => 70

def ratio85 : String → String → ℚ := fun _ _ => 85

def ratio90 : String → String → ℚ := fun _ _ => 90

/-- An officer summary matching the phoenix-director pattern: one dissolved
link and one recent formation. -/
def officerPhx (nm : String) : OfficerEntry :=
  { name := nm, role := "director", appointed_on := "", resigned_on := "",
    linked_companies := [], dissolved_links := 1, liquidation_links := 0,
    recent_formations := 1 }

/-- A dissolved similar-company search hit. -/
def simDissolved (t n : String) : SearchItem :=
  { title := t, company_status := "dissolved", company_number := n,
    date_of_creation := "", address_snippet := none, found_by := none }

/-- Two phoenix-pattern directors and exactly two similar dissolved
companies at 75% similarity, no insolvency, no address: the confidence
pass adds 40 (checked at 40) and then 20 (unchecked), reaching 60 with the
verdict still false. -/
def bundleC1 : Report :=
  { company := { company_name := "Acme Ltd", company_status := "active",
                 company_number := "1", registered_office_address := none },
    officers := [officerPhx "A", officerPhx "B"],
    filing_history := [], psc := [], charges := [], insolvency := none,
    similar_companies := [simDissolved "Acme Limited" "2", simDissolved "Acme Group" "3"],
    flags := [], risk_score := 0, risk_level := "", is_phoenix := "",
    phoenix_confidence := 0, phoenix_reasons := [], phoenix_indicators := [] }

/-- Two phoenix-pattern directors plus an insolvency record: the checked
insolvency contribution reaches 70 and sets the verdict. -/
def bundlePhxYes : Report :=
  { company := { company_name := "Acme Ltd", company_status := "active",
                 company_number := "1", registered_office_address := none },
    officers := [officerPhx "A", officerPhx "B"],
    filing_history := [], psc := [], charges := [],
    insolvency := some { raw := "cases" },
    similar_companies := [], flags := [], risk_score := 0, risk_level := "",
    is_phoenix := "", phoenix_confidence := 0, phoenix_reasons := [],
    phoenix_indicators := [] }

/-- A bundle with no signal at all. -/
def bundleEmpty : Report :=
  { company := { company_name := "Quiet Ltd", company_status := "active",
                 company_number := "9", registered_office_address := none },
    officers := [], filing_history := [], psc := [], charges := [],
    insolvency := none, similar_companies := [], flags := [], risk_score := 0,
    risk_level := "", is_phoenix := "", phoenix_confidence := 0,
    phoenix_reasons := [], phoenix_indicators := [] }

/-- Exactly three dissolved similar companies and nothing else. -/
def bundle3Sim : Report :=
  { company := { company_name := "Phoenix Trading Ltd", company_status := "active",
                 company_number := "1", registered_office_address := none },
    officers := [], filing_history := [], psc := [], charges := [],
    insolvency := none,
    similar_companies := [simDissolved "Phoenix Trading Limited" "2",
      simDissolved "Phoenix Trading UK Limited" "3",
      simDissolved "Phoenix Commerce Limited" "4"],
    flags := [], risk_score := 0, risk_level := "", is_phoenix := "",
    phoenix_confidence := 0, phoenix_reasons := [], phoenix_indicators := [] }

def simBoundary : SearchItem := simDissolved "Phoenix Trading Limited" "2"

def companyA : Company :=
  { company_name := "ACME TRADING LTD", company_status := "active",
    company_number := "1", registered_office_address := none }

def hitAcme2 : SearchItem :=
  { title := "ACME TRADING LIMITED", company_status := "dissolved", company_number := "2",
    date_of_creation := "2020-01-01", address_snippet := none, found_by := none }

/-- A registry whose company-name search returns one raw hit (no `found_by`
key) and whose other searches fail. -/
def regC8 : Registry :=
  { companyResp := Except.ok companyA
    officersResp := ApiResp.ok (some [])
    filingResp := ApiResp.ok (some [])
    pscResp := ApiResp.ok (some [])
    chargesResp := ApiResp.ok (some [])
    insolvencyResp := Except.error "Not found"
    search := fun q => if q = "ACME TRADING LTD" then ApiResp.ok (some [hitAcme2])
      else ApiResp.err "down" }

/-- The scored bundle the scan of `regC8` produces. -/
def bundleC8 : Report := calculate_risk ratio0 (collect 0 regC8 companyA "1")

/-- A registry whose profile fetch fails. -/
def regProfileErr : Registry :=
  { companyResp := Except.error "Not found"
    officersResp := ApiResp.err "HTTP 500"
    filingResp := ApiResp.err "HTTP 500"
    pscResp := ApiResp.err "HTTP 500"
    chargesResp := ApiResp.err "HTTP 500"
    insolvencyResp := Except.error "HTTP 500"
    search := fun _ => ApiResp.err "HTTP 500" }

/-- A registry whose profile fetch succeeds and every secondary call fails. -/
def regSecondaryErr : Registry :=
  { companyResp := Except.ok companyA
    officersResp := ApiResp.err "HTTP 500"
    filingResp := ApiResp.err "HTTP 500"
    pscResp := ApiResp.err "HTTP 500"
    chargesResp := ApiResp.err "HTTP 500"
    insolvencyResp := Except.error "HTTP 500"
    search := fun _ => ApiResp.err "HTTP 500" }

/-! ## Helper lemmas -/

theorem confCheckedAdd_sound (delta : Nat) (reason : String) (st : PhoenixAcc)
    (h : st.sound) : (confCheckedAdd delta reason st).sound := by
  intro hv
  unfold confCheckedAdd at hv ⊢
  dsimp only at hv ⊢
  split at hv
  · assumption
  · exact le_trans (h hv) (Nat.le_add_right _ _)

theorem confAdd_sound (delta : Nat) (reason : String) (st : PhoenixAcc)
    (h : st.sound) : (confAdd delta reason st).sound := by
  intro hv
  exact le_trans (h hv) (Nat.le_add_right _ _)

/-- Every branch of the verdict paragraph preserves soundness, and the
final clamp keeps a justified verdict justified. -/
theorem phoenixSection_sound (npd nhl nnrd : Nat) (hasInsolv : Bool) (naddr nserial : Nat)
    (h : (phoenixSection npd nhl nnrd hasInsolv naddr nserial).verdict = true) :
    60 ≤ (phoenixSection npd nhl nnrd hasInsolv naddr nserial).conf := by
  have h0 : (⟨false, 0, []⟩ : PhoenixAcc).sound := by intro hv; simp at hv
  have h1 : (pdBranch npd ⟨false, 0, []⟩).sound := by
    unfold pdBranch; split
    · exact confCheckedAdd_sound _ _ _ h0
    · split
      · exact confAdd_sound _ _ _ h0
      · exact h0
  have h2 : (hlBranch nhl (pdBranch npd ⟨false, 0, []⟩)).sound := by
    unfold hlBranch; split
    · exact confCheckedAdd_sound _ _ _ h1
    · exact h1
  have h3 : (nrdBranch nnrd (hlBranch nhl (pdBranch npd ⟨false, 0, []⟩))).sound := by
    unfold nrdBranch; split
    · exact confCheckedAdd_sound _ _ _ h2
    · split
      · exact confAdd_sound _ _ _ h2
      · exact h2
  have h4 : (insBranch hasInsolv npd (nrdBranch nnrd (hlBranch nhl
      (pdBranch npd ⟨false, 0, []⟩)))).sound := by
    unfold insBranch; split
    · exact confCheckedAdd_sound _ _ _ h3
    · exact h3
  have h5 : (addrBranch naddr nnrd (insBranch hasInsolv npd (nrdBranch nnrd (hlBranch nhl
      (pdBranch npd ⟨false, 0, []⟩))))).sound := by
    unfold addrBranch; split
    · exact confCheckedAdd_sound _ _ _ h4
    · exact h4
  have h6 : (serialBranch nserial nnrd (addrBranch naddr nnrd (insBranch hasInsolv npd
      (nrdBranch nnrd (hlBranch nhl (pdBranch npd ⟨false, 0, []⟩)))))).sound := by
    unfold serialBranch; split
    · exact confCheckedAdd_sound _ _ _ h5
    · exact h5
  have hv : (serialBranch nserial nnrd (addrBranch naddr nnrd (insBranch hasInsolv npd
      (nrdBranch nnrd (hlBranch nhl (pdBranch npd ⟨false, 0, []⟩)))))).verdict = true := h
  have hc := h6 hv
  show 60 ≤ min _ 100
  omega

/-- The scorer's verdict and confidence fields are those of a
`phoenixSection` application. -/
theorem calc_phoenix_shape (ratio : String → String → ℚ) (report : Report) :
    ∃ a b c e f, ∃ d : Bool,
      (calculate_risk ratio report).is_phoenix =
        (if (phoenixSection a b c d e f).verdict then "YES" else "NO") ∧
      (calculate_risk ratio report).phoenix_confidence = (phoenixSection a b c d e f).conf :=
  ⟨_, _, _, _, _, _, rfl, rfl⟩

/-- The scorer's risk score is a value clamped by `min _ 100`. -/
theorem calc_risk_score_shape (ratio : String → String → ℚ) (r : Report) :
    ∃ n, (calculate_risk ratio r).risk_score = min n 100 := ⟨_, rfl⟩

theorem phoenixSection_conf_le_100 (npd nhl nnrd : Nat) (hasInsolv : Bool)
    (naddr nserial : Nat) :
    (phoenixSection npd nhl nnrd hasInsolv naddr nserial).conf ≤ 100 :=
  Nat.min_le_right _ _

/-- The scorer never rewrites a collected field (helper form, shared by the
collector proofs). -/
theorem calculate_risk_keeps (ratio : String → String → ℚ) (r : Report) :
    (calculate_risk ratio r).company = r.company ∧
    (calculate_risk ratio r).officers = r.officers ∧
    (calculate_risk ratio r).filing_history = r.filing_history ∧
    (calculate_risk ratio r).psc = r.psc ∧
    (calculate_risk ratio r).charges = r.charges ∧
    (calculate_risk ratio r).insolvency = r.insolvency ∧
    (calculate_risk ratio r).similar_companies = r.similar_companies ∧
    (calculate_risk ratio r).flags = r.flags :=
  ⟨rfl, rfl, rfl, rfl, rfl, rfl, rfl, rfl⟩

/-- An error response carries no `items` key, so its item list is empty. -/
theorem getItems_of_isErr {α : Type} (resp : ApiResp (List α)) (h : resp.isErr = true) :
    getItems resp = [] := by
  cases resp with
  | err m => rfl
  | ok o => simp [ApiResp.isErr] at h

theorem similarStep_high (ratio : String → String → ℚ) (cname : String) (acc : SimAcc)
    (s : SearchItem) (hst : s.company_status ∈ susp3)
    (h85 : 85 ≤ ratio cname s.title.toLower) :
    similarStep ratio cname acc s =
      { risk := acc.risk + 25
        inds := acc.inds ++ [highNameInd s (ratio cname s.title.toLower)]
        nrd := acc.nrd ++ [s] } := by
  unfold similarStep
  dsimp only
  rw [if_pos hst, if_pos (le_trans (by norm_num : (70 : ℚ) ≤ 85) h85), if_pos h85]

theorem similarStep_med (ratio : String → String → ℚ) (cname : String) (acc : SimAcc)
    (s : SearchItem) (hst : s.company_status ∈ susp3)
    (h70 : 70 ≤ ratio cname s.title.toLower) (h85 : ratio cname s.title.toLower < 85) :
    similarStep ratio cname acc s =
      { risk := acc.risk + 15
        inds := acc.inds ++ [medNameInd s (ratio cname s.title.toLower)]
        nrd := acc.nrd ++ [s] } := by
  unfold similarStep
  dsimp only
  rw [if_pos hst, if_pos h70, if_neg (not_le.mpr h85), if_pos h70]

theorem similarStep_skip_low (ratio : String → String → ℚ) (cname : String) (acc : SimAcc)
    (s : SearchItem) (hst : s.company_status ∈ susp3)
    (h70 : ratio cname s.title.toLower < 70) :
    similarStep ratio cname acc s = acc := by
  unfold similarStep
  dsimp only
  rw [if_pos hst, if_neg (not_le.mpr h70)]

theorem similarStep_skip_status (ratio : String → String → ℚ) (cname : String) (acc : SimAcc)
    (s : SearchItem) (hst : s.company_status ∉ susp3) :
    similarStep ratio cname acc s = acc := by
  unfold similarStep
  dsimp only
  rw [if_neg hst]

theorem linkedStep_recent (cutoff : ℚ) (nm : String) (acc : OfficerEntry × List String)
    (lc : SearchItem) :
    (linkedStep cutoff nm acc lc).1.recent_formations =
      acc.1.recent_formations +
        (if isRecentFormation cutoff lc.date_of_creation then 1 else 0) := by
  unfold linkedStep
  dsimp only
  split_ifs <;> rfl

theorem linked_fold_recent (cutoff : ℚ) (nm : String) (items : List SearchItem)
    (acc : OfficerEntry × List String) :
    (items.foldl (linkedStep cutoff nm) acc).1.recent_formations =
      acc.1.recent_formations +
        (items.filter (fun lc => isRecentFormation cutoff lc.date_of_creation)).length := by
  induction items generalizing acc with
  | nil => simp
  | cons hd tl ih =>
    rw [List.foldl_cons, ih, linkedStep_recent]
    by_cases hr : isRecentFormation cutoff hd.date_of_creation
    · simp [hr]; omega
    · simp [hr]

/-- The address-search loop only ever appends candidates tagged
`found_by = 'address'`. -/
theorem add_addr_inv (num : String) (items : List SearchItem) (acc : List SearchItem)
    (hacc : ∀ s ∈ acc, s.found_by = none ∨ s.found_by = some "address") :
    ∀ s ∈ add_address_similars items num acc,
      s.found_by = none ∨ s.found_by = some "address" := by
  induction items generalizing acc with
  | nil => intro s hs; exact hacc s hs
  | cons hd tl ih =>
    intro s hs
    unfold add_address_similars at hs
    rw [List.foldl_cons] at hs
    refine ih (addAddrStep num acc hd) ?_ s ?_
    · intro t ht
      unfold addAddrStep at ht
      split_ifs at ht with h1 h2
      · exact hacc t ht
      · rcases List.mem_append.mp ht with h | h
        · exact hacc t h
        · rw [List.mem_singleton.mp h]
          right; rfl
      · exact hacc t ht
    · unfold add_address_similars
      exact hs

/-! ## The claims -/

/-- C1 (counterexample): a scored bundle with `phoenix_confidence = 60` and
a false phoenix verdict, contradicting the claim that a confidence at or
above 60 always comes with a true verdict. Two phoenix-pattern directors
add 40 (checked while the total is still 40) and exactly two name-recycling
matches add 20 through the `elif` arm that carries no verdict check. -/
theorem confidence_sixty_with_false_verdict :
    (calculate_risk ratioC bundleC1).phoenix_confidence = 60 ∧
    (calculate_risk ratioC bundleC1).is_phoenix = "NO" :=
  ⟨rfl, rfl⟩

/-- C1 (amended): the implication that does hold is the converse one — a
true phoenix verdict implies a final `phoenix_confidence` of at least 60,
because the verdict is only ever set inside a `>= 60` check and the
accumulated confidence never decreases; confidence at or above 60 does not
imply a true verdict, since the `+25` one-phoenix-director and `+20`
two-name-recycling additions carry no check. -/
theorem phoenix_verdict_implies_confidence (ratio : String → String → ℚ) (report : Report)
    (h : (calculate_risk ratio report).is_phoenix = "YES") :
    60 ≤ (calculate_risk ratio report).phoenix_confidence := by
  obtain ⟨a, b, c, e, f, d, h1, h2⟩ := calc_phoenix_shape ratio report
  rw [h1] at h
  rw [h2]
  by_cases hv : (phoenixSection a b c d e f).verdict = true
  · exact phoenixSection_sound _ _ _ _ _ _ hv
  · rw [if_neg hv] at h
    exact absurd h (by decide)

theorem phoenix_verdict_implies_confidence_witness :
    (calculate_risk ratio0 bundlePhxYes).is_phoenix = "YES" ∧
    60 ≤ (calculate_risk ratio0 bundlePhxYes).phoenix_confidence :=
  ⟨rfl, phoenix_verdict_implies_confidence ratio0 bundlePhxYes rfl⟩

/-- C2: for every bundle the returned `risk_score` and `phoenix_confidence`
lie in `[0, 100]`: contributions are non-negative naturals summed and then
clamped with `min _ 100`. -/
theorem risk_score_and_confidence_in_range (ratio : String → String → ℚ) (report : Report) :
    0 ≤ (calculate_risk ratio report).risk_score ∧
    (calculate_risk ratio report).risk_score ≤ 100 ∧
    0 ≤ (calculate_risk ratio report).phoenix_confidence ∧
    (calculate_risk ratio report).phoenix_confidence ≤ 100 := by
  refine ⟨Nat.zero_le _, ?_, Nat.zero_le _, ?_⟩
  · obtain ⟨n, hn⟩ := calc_risk_score_shape ratio report
    rw [hn]
    exact Nat.min_le_right _ _
  · obtain ⟨a, b, c, e, f, d, h1, h2⟩ := calc_phoenix_shape ratio report
    rw [h2]
    exact phoenixSection_conf_le_100 _ _ _ _ _ _

/-- C3: the scorer is deterministic (a pure function of the bundle in this
embedding, with no I/O or clock parameter) and idempotent: scoring a scored
bundle again rewrites every assessment field with the same value, because
`calculate_risk` reads only the collected fields, which it never changes. -/
theorem calculate_risk_idempotent (ratio : String → String → ℚ) (report : Report) :
    calculate_risk ratio (calculate_risk ratio report) = calculate_risk ratio report := rfl

/-- C4: a profile-fetch error aborts the scan with exactly that error and no
bundle; when the profile fetch succeeds the scan always returns a scored
bundle, and each failed secondary call degrades to an empty section:
officers, filing history, PSC, charges empty on their errors, no insolvency
record on its error, and no similar companies (and no linked companies on
any officer) when every search fails. -/
theorem deep_scan_error_handling (ratio : String → String → ℚ) (cutoff : ℚ) (reg : Registry)
    (company_number : String) :
    (∀ e, reg.companyResp = Except.error e →
      deep_scan_company ratio cutoff reg company_number = Except.error e) ∧
    (∀ company, reg.companyResp = Except.ok company →
      deep_scan_company ratio cutoff reg company_number =
        Except.ok (calculate_risk ratio (collect cutoff reg company company_number)) ∧
      (reg.officersResp.isErr = true →
        (calculate_risk ratio (collect cutoff reg company company_number)).officers = []) ∧
      (reg.filingResp.isErr = true →
        (calculate_risk ratio (collect cutoff reg company company_number)).filing_history = []) ∧
      (reg.pscResp.isErr = true →
        (calculate_risk ratio (collect cutoff reg company company_number)).psc = []) ∧
      (reg.chargesResp.isErr = true →
        (calculate_risk ratio (collect cutoff reg company company_number)).charges = []) ∧
      ((∃ e, reg.insolvencyResp = Except.error e) →
        (calculate_risk ratio (collect cutoff reg company company_number)).insolvency = none) ∧
      ((∀ q, (reg.search q).isErr = true) →
        (calculate_risk ratio (collect cutoff reg company company_number)).similar_companies
          = [] ∧
        ∀ o ∈ (calculate_risk ratio (collect cutoff reg company company_number)).officers,
          o.linked_companies = [])) := by
  constructor
  · intro e he
    unfold deep_scan_company
    rw [he]
  · intro company hc
    refine ⟨?_, ?_, ?_, ?_, ?_, ?_, ?_⟩
    · unfold deep_scan_company
      rw [hc]
    · intro hErr
      rw [(calculate_risk_keeps ratio _).2.1]
      simp [collect, getItems_of_isErr _ hErr]
    · intro hErr
      rw [(calculate_risk_keeps ratio _).2.2.1]
      simp [collect, getItems_of_isErr _ hErr]
    · intro hErr
      rw [(calculate_risk_keeps ratio _).2.2.2.1]
      simp [collect, getItems_of_isErr _ hErr]
    · intro hErr
      rw [(calculate_risk_keeps ratio _).2.2.2.2.1]
      simp [collect, getItems_of_isErr _ hErr]
    · rintro ⟨e, he⟩
      rw [(calculate_risk_keeps ratio _).2.2.2.2.2.1]
      simp [collect, he]
    · intro hq
      constructor
      · rw [(calculate_risk_keeps ratio _).2.2.2.2.2.2.1]
        simp only [collect]
        split_ifs with h1 h2 <;>
          simp [getItems_of_isErr _ (hq _), add_address_similars]
      · intro o ho
        rw [(calculate_risk_keeps ratio _).2.1] at ho
        simp only [collect, List.map_map, List.mem_map] at ho
        obtain ⟨raw, hraw, rfl⟩ := ho
        simp [build_officer_entry, getItems_of_isErr _ (hq _)]

theorem deep_scan_error_handling_witness :
    deep_scan_company ratio0 0 regProfileErr "1" = Except.error "Not found" ∧
    (calculate_risk ratio0 (collect 0 regSecondaryErr companyA "1")).charges = [] ∧
    (calculate_risk ratio0 (collect 0 regSecondaryErr companyA "1")).similar_companies = [] :=
  ⟨(deep_scan_error_handling ratio0 0 regProfileErr "1").1 "Not found" rfl,
   ((deep_scan_error_handling ratio0 0 regSecondaryErr "1").2 companyA rfl).2.2.2.2.1 rfl,
   (((deep_scan_error_handling ratio0 0 regSecondaryErr "1").2 companyA rfl).2.2.2.2.2.2
     (fun _ => rfl)).1⟩

/-- C5: a bundle with no officers, no similar companies, no charges, no
insolvency record, and a non-suspicious profile status scores
`risk_score = 0`, `risk_level = LOW`, a false phoenix verdict,
`phoenix_confidence = 0`, no indicators, and the single default
no-pattern reason. -/
theorem empty_bundle_default_assessment (ratio : String → String → ℚ) (r : Report)
    (hoff : r.officers = []) (hsim : r.similar_companies = []) (hch : r.charges = [])
    (hins : r.insolvency = none)
    (hstat : r.company.company_status ∉ suspicious_statuses) :
    (calculate_risk ratio r).risk_score = 0 ∧
    (calculate_risk ratio r).risk_level = "LOW" ∧
    (calculate_risk ratio r).is_phoenix = "NO" ∧
    (calculate_risk ratio r).phoenix_confidence = 0 ∧
    (calculate_risk ratio r).phoenix_indicators = [] ∧
    (calculate_risk ratio r).phoenix_reasons =
      ["No clear phoenix patterns detected based on name, director, or address analysis"] := by
  unfold calculate_risk
  rw [hoff, hsim, hch, hins, if_neg hstat]
  by_cases hta : build_address_string r.company = ""
  · simp [hta, phoenixSection, pdBranch, hlBranch, nrdBranch, insBranch, addrBranch,
      serialBranch]
  · simp [hta, phoenixSection, pdBranch, hlBranch, nrdBranch, insBranch, addrBranch,
      serialBranch]

theorem empty_bundle_default_assessment_witness :
    (calculate_risk ratio0 bundleEmpty).risk_score = 0 ∧
    (calculate_risk ratio0 bundleEmpty).risk_level = "LOW" ∧
    (calculate_risk ratio0 bundleEmpty).is_phoenix = "NO" ∧
    (calculate_risk ratio0 bundleEmpty).phoenix_confidence = 0 ∧
    (calculate_risk ratio0 bundleEmpty).phoenix_indicators = [] ∧
    (calculate_risk ratio0 bundleEmpty).phoenix_reasons =
      ["No clear phoenix patterns detected based on name, director, or address analysis"] :=
  empty_bundle_default_assessment ratio0 bundleEmpty rfl rfl rfl rfl (by decide)

/-- C6: with exactly three dissolved similar candidates at name similarity
at least 85% and no other signal, each candidate adds 25 with a high
`high_name_similarity` indicator and the strong name-recycling rule adds 30
with a critical indicator; the raw sum 105 is clamped to a returned
`risk_score` of 100 with `risk_level = CRITICAL`. -/
theorem three_high_similarity_candidates_clamped (ratio : String → String → ℚ) (r : Report)
    (s1 s2 s3 : SearchItem)
    (hsim : r.similar_companies = [s1, s2, s3])
    (hd1 : s1.company_status = "dissolved") (hd2 : s2.company_status = "dissolved")
    (hd3 : s3.company_status = "dissolved")
    (hr1 : 85 ≤ ratio r.company.company_name.toLower s1.title.toLower)
    (hr2 : 85 ≤ ratio r.company.company_name.toLower s2.title.toLower)
    (hr3 : 85 ≤ ratio r.company.company_name.toLower s3.title.toLower)
    (hoff : r.officers = []) (hch : r.charges = []) (hins : r.insolvency = none)
    (hstat : r.company.company_status ∉ suspicious_statuses)
    (haddr : build_address_string r.company = "") :
    (calculate_risk ratio r).risk_score = 100 ∧
    (calculate_risk ratio r).risk_level = "CRITICAL" ∧
    (calculate_risk ratio r).phoenix_indicators.map (fun i => (i.type, i.severity)) =
      [("high_name_similarity", "high"), ("high_name_similarity", "high"),
       ("high_name_similarity", "high"), ("name_recycling", "critical")] := by
  have hst1 : s1.company_status ∈ susp3 := by rw [hd1]; decide
  have hst2 : s2.company_status ∈ susp3 := by rw [hd2]; decide
  have hst3 : s3.company_status ∈ susp3 := by rw [hd3]; decide
  have e1 := similarStep_high ratio r.company.company_name.toLower
    { risk := 0, inds := [], nrd := [] } s1 hst1 hr1
  have e2 := similarStep_high ratio r.company.company_name.toLower
    { risk := 0 + 25
      inds := [] ++ [highNameInd s1 (ratio r.company.company_name.toLower s1.title.toLower)]
      nrd := [] ++ [s1] } s2 hst2 hr2
  have e3 := similarStep_high ratio r.company.company_name.toLower
    { risk := 0 + 25 + 25
      inds := ([] ++ [highNameInd s1 (ratio r.company.company_name.toLower s1.title.toLower)]) ++
        [highNameInd s2 (ratio r.company.company_name.toLower s2.title.toLower)]
      nrd := ([] ++ [s1]) ++ [s2] } s3 hst3 hr3
  unfold calculate_risk
  rw [hsim, hoff, hch, hins, if_neg hstat]
  simp only [List.foldl_cons, List.foldl_nil, e1, e2, e3, haddr]
  simp [highNameInd, mkInd]

theorem three_high_similarity_candidates_clamped_witness :
    (calculate_risk ratio90 bundle3Sim).risk_score = 100 ∧
    (calculate_risk ratio90 bundle3Sim).risk_level = "CRITICAL" ∧
    (calculate_risk ratio90 bundle3Sim).phoenix_indicators.map (fun i => (i.type, i.severity)) =
      [("high_name_similarity", "high"), ("high_name_similarity", "high"),
       ("high_name_similarity", "high"), ("name_recycling", "critical")] :=
  three_high_similarity_candidates_clamped ratio90 bundle3Sim
    (simDissolved "Phoenix Trading Limited" "2")
    (simDissolved "Phoenix Trading UK Limited" "3")
    (simDissolved "Phoenix Commerce Limited" "4")
    rfl rfl rfl rfl (by decide) (by decide) (by decide) rfl rfl rfl (by decide) rfl

/-- C7: for a similar candidate whose status is dissolved, liquidation or
insolvency-proceedings, a similarity of at least 85 adds 25 with the high
`high_name_similarity` indicator; a similarity in `[70, 85)` adds 15 with
the medium `name_similarity` indicator; below 70 the candidate contributes
nothing. Both lower bounds are inclusive: exactly 70 is medium, exactly 85
is high. -/
theorem similar_candidate_thresholds (ratio : String → String → ℚ) (cname : String)
    (acc : SimAcc) (s : SearchItem) (hst : s.company_status ∈ susp3) :
    (85 ≤ ratio cname s.title.toLower →
      similarStep ratio cname acc s =
        { risk := acc.risk + 25
          inds := acc.inds ++ [highNameInd s (ratio cname s.title.toLower)]
          nrd := acc.nrd ++ [s] }) ∧
    (70 ≤ ratio cname s.title.toLower → ratio cname s.title.toLower < 85 →
      similarStep ratio cname acc s =
        { risk := acc.risk + 15
          inds := acc.inds ++ [medNameInd s (ratio cname s.title.toLower)]
          nrd := acc.nrd ++ [s] }) ∧
    (ratio cname s.title.toLower < 70 → similarStep ratio cname acc s = acc) :=
  ⟨fun h85 => similarStep_high ratio cname acc s hst h85,
   fun h70 h85 => similarStep_med ratio cname acc s hst h70 h85,
   fun h70 => similarStep_skip_low ratio cname acc s hst h70⟩

theorem similar_candidate_thresholds_witness :
    similarStep ratio70 "phoenix trading ltd" { risk := 0, inds := [], nrd := [] }
        simBoundary =
      { risk := 0 + 15
        inds := [] ++
          [medNameInd simBoundary (ratio70 "phoenix trading ltd" simBoundary.title.toLower)]
        nrd := [] ++ [simBoundary] } ∧
    similarStep ratio85 "phoenix trading ltd" { risk := 0, inds := [], nrd := [] }
        simBoundary =
      { risk := 0 + 25
        inds := [] ++
          [highNameInd simBoundary (ratio85 "phoenix trading ltd" simBoundary.title.toLower)]
        nrd := [] ++ [simBoundary] } :=
  ⟨(similar_candidate_thresholds ratio70 "phoenix trading ltd"
      { risk := 0, inds := [], nrd := [] } simBoundary (by decide)).2.1 (by decide) (by decide),
   (similar_candidate_thresholds ratio85 "phoenix trading ltd"
      { risk := 0, inds := [], nrd := [] } simBoundary (by decide)).1 (by decide)⟩

/-- C8 (counterexample): a scan whose name search returns one hit; the hit
reaches the bundle's `similar_companies` with no `found_by` key at all
(`none`), not a `found_by = 'name'` tag as the claim states. -/
theorem name_search_hit_untagged :
    deep_scan_company ratio0 0 regC8 "1" = Except.ok bundleC8 ∧
    bundleC8.similar_companies.map (fun s => s.found_by) = [none] :=
  ⟨rfl, rfl⟩

/-- C8 (amended): the collector tags only address-search hits, with
`found_by = 'address'`; name-search hits are appended unchanged, so when
the raw registry hits carry no `found_by` key every candidate of a scored
bundle has `found_by` either absent or `'address'` — the value `'name'`
exists only as a render-time default in the CSV export. -/
theorem similar_found_by_values (ratio : String → String → ℚ) (cutoff : ℚ) (reg : Registry)
    (company_number : String) (r : Report)
    (hraw : ∀ q s, s ∈ getItems (reg.search q) → s.found_by = none)
    (hok : deep_scan_company ratio cutoff reg company_number = Except.ok r) :
    r.similar_companies.all
      (fun s => s.found_by == none || s.found_by == some "address") = true := by
  unfold deep_scan_company at hok
  cases hc : reg.companyResp with
  | error e => rw [hc] at hok; cases hok
  | ok company =>
    rw [hc] at hok
    injection hok with hr
    rw [← hr, (calculate_risk_keeps ratio _).2.2.2.2.2.2.1]
    rw [List.all_eq_true]
    intro s hs
    have hmem : s.found_by = none ∨ s.found_by = some "address" := by
      simp only [collect] at hs
      by_cases ha : build_address_string company ≠ ""
      · rw [if_pos ha] at hs
        by_cases hn : company.company_name ≠ ""
        · rw [if_pos hn] at hs
          exact add_addr_inv _ _ _
            (fun t ht => Or.inl (hraw _ t (List.mem_of_mem_filter ht))) s hs
        · rw [if_neg hn] at hs
          exact add_addr_inv _ _ _
            (fun t ht => absurd ht (List.not_mem_nil t)) s hs
      · rw [if_neg ha] at hs
        by_cases hn : company.company_name ≠ ""
        · rw [if_pos hn] at hs
          exact Or.inl (hraw _ s (List.mem_of_mem_filter hs))
        · rw [if_neg hn] at hs
          cases hs
    rcases hmem with h | h <;> simp [h]

theorem similar_found_by_values_witness :
    bundleC8.similar_companies.all
      (fun s => s.found_by == none || s.found_by == some "address") = true :=
  similar_found_by_values ratio0 0 regC8 "1" bundleC8
    (by
      intro q s hs
      simp only [regC8] at hs
      split_ifs at hs with h
      · simp only [getItems, List.mem_singleton] at hs
        rw [hs]; rfl
      · simp [getItems] at hs)
    rfl

/-- C9: scoring is frame-preserving on the collected bundle: the company
profile, officers (with their linked companies and counters), filing
history, PSC, charges, insolvency record, similar companies and flags are
returned exactly as collected; only the six assessment fields are set. -/
theorem calculate_risk_frame (ratio : String → String → ℚ) (r : Report) :
    (calculate_risk ratio r).company = r.company ∧
    (calculate_risk ratio r).officers = r.officers ∧
    (calculate_risk ratio r).filing_history = r.filing_history ∧
    (calculate_risk ratio r).psc = r.psc ∧
    (calculate_risk ratio r).charges = r.charges ∧
    (calculate_risk ratio r).insolvency = r.insolvency ∧
    (calculate_risk ratio r).similar_companies = r.similar_companies ∧
    (calculate_risk ratio r).flags = r.flags :=
  ⟨rfl, rfl, rfl, rfl, rfl, rfl, rfl, rfl⟩

/-- C10: `recent_formations` counts exactly the linked companies whose
`date_of_creation` is nonempty, parses as `%Y-%m-%d`, and is strictly later
than the 730-day cutoff; a missing or unparseable date contributes zero
(the `ValueError` is swallowed, the officer summary is still produced). -/
theorem recent_formations_spec (cutoff : ℚ) (items : List SearchItem) (officer : RawOfficer) :
    (build_officer_entry cutoff items officer).1.recent_formations =
      (items.filter (fun lc => isRecentFormation cutoff lc.date_of_creation)).length ∧
    (∀ dc : String, dc = "" ∨ strptimeYmd dc = none →
      isRecentFormation cutoff dc = false) := by
  constructor
  · unfold build_officer_entry
    rw [linked_fold_recent]
    simp
  · intro dc h
    rcases h with h | h <;> simp [isRecentFormation, h]

theorem recent_formations_spec_witness :
    isRecentFormation 0 "2024-13-01" = false :=
  (recent_formations_spec 0 []
    { name := none, officer_role := "", appointed_on := "", resigned_on := "" }).2
    "2024-13-01" (Or.inr (by decide))

end Phoenix
